import Mathlib

/-!
# Verification of the OpenClaw device-auth client

A shallow embedding of `device_auth.py` (device pairing, credential
persistence, the connect handshake) together with a spec-level model of the
RPC transport, and theorems settling the specification claims about them.

Machine integers are modelled as `Nat` with explicit `% 2 ^ 32` reductions;
byte strings are `List Nat` with every element below 256.
-/

namespace DeviceAuth

/-! ## SHA-256

`DeviceCredentials.generate` derives the device id with `hashlib.sha256`;
this is the standard FIPS 180-4 SHA-256 over a list of bytes, with 32-bit
words carried as `Nat` reduced mod `2 ^ 32`. -/

def w32 : Nat := 2 ^ 32

def rotr (n x : Nat) : Nat :=
  ((x >>> n) ||| (x <<< (32 - n))) % w32

/-- Bitwise complement on a 32-bit word, via xor with the all-ones mask. -/
def compl32 (x : Nat) : Nat := x ^^^ (w32 - 1)

/-- The eight working variables of the compression function. -/
structure Hash8 where
  a : Nat
  b : Nat
  c : Nat
  d : Nat
  e : Nat
  f : Nat
  g : Nat
  h : Nat
deriving DecidableEq, Repr

/-- SHA-256 initial hash value (FIPS 180-4 section 5.3.3, written in
decimal). -/
def H0 : Hash8 :=
  ⟨1779033703, 3144134277, 1013904242, 2773480762,
   1359893119, 2600822924, 528734635, 1541459225⟩

/-- SHA-256 round constants (FIPS 180-4 section 4.2.2, written in
decimal). -/
def K : List Nat :=
  [1116352408, 1899447441, 3049323471, 3921009573, 961987163, 1508970993,
   2453635748, 2870763221, 3624381080, 310598401, 607225278, 1426881987,
   1925078388, 2162078206, 2614888103, 3248222580, 3835390401, 4022224774,
   264347078, 604807628, 770255983, 1249150122, 1555081692, 1996064986,
   2554220882, 2821834349, 2952996808, 3210313671, 3336571891, 3584528711,
   113926993, 338241895, 666307205, 773529912, 1294757372, 1396182291,
   1695183700, 1986661051, 2177026350, 2456956037, 2730485921, 2820302411,
   3259730800, 3345764771, 3516065817, 3600352804, 4094571909, 275423344,
   430227734, 506948616, 659060556, 883997877, 958139571, 1322822218,
   1537002063, 1747873779, 1955562222, 2024104815, 2227730452, 2361852424,
   2428436474, 2756734187, 3204031479, 3329325298]

/-- Big-endian bytes of a 64-bit length field. -/
def be64 (n : Nat) : List Nat :=
  [n / 2 ^ 56 % 256, n / 2 ^ 48 % 256, n / 2 ^ 40 % 256, n / 2 ^ 32 % 256,
   n / 2 ^ 24 % 256, n / 2 ^ 16 % 256, n / 2 ^ 8 % 256, n % 256]

/-- FIPS 180-4 padding: append 0x80, zero bytes up to 56 mod 64, then the
bit length as a big-endian 64-bit integer. -/
def padMsg (m : List Nat) : List Nat :=
  m ++ [0x80] ++ List.replicate ((119 - m.length % 64) % 64) 0 ++ be64 (8 * m.length)

/-- Split a byte list into 64-byte chunks (fuel-driven; the fuel `l.length`
suffices because every step consumes at least one element). -/
def chunksAux : Nat → List Nat → List (List Nat)
  | 0, _ => []
  | _, [] => []
  | fuel + 1, xs => xs.take 64 :: chunksAux fuel (xs.drop 64)

def chunks64 (l : List Nat) : List (List Nat) := chunksAux l.length l

/-- Assemble big-endian 32-bit words from bytes. -/
def bytesToWords : List Nat → List Nat
  | a :: b :: c :: d :: rest =>
      (a % 256 * 2 ^ 24 + b % 256 * 2 ^ 16 + c % 256 * 2 ^ 8 + d % 256) :: bytesToWords rest
  | _ => []

/-- Extend the 16 chunk words to the 64-entry message schedule. -/
def schedule (first16 : List Nat) : List Nat :=
  (List.range 48).foldl
    (fun w _ =>
      let n := w.length
      let s0 := rotr 7 (w.getD (n - 15) 0) ^^^ rotr 18 (w.getD (n - 15) 0) ^^^
        (w.getD (n - 15) 0 >>> 3)
      let s1 := rotr 17 (w.getD (n - 2) 0) ^^^ rotr 19 (w.getD (n - 2) 0) ^^^
        (w.getD (n - 2) 0 >>> 10)
      w ++ [(w.getD (n - 16) 0 + s0 + w.getD (n - 7) 0 + s1) % w32])
    first16

/-- One compression round. -/
def round (k wi : Nat) (s : Hash8) : Hash8 :=
  let S1 := rotr 6 s.e ^^^ rotr 11 s.e ^^^ rotr 25 s.e
  let ch := (s.e &&& s.f) ^^^ (compl32 s.e &&& s.g)
  let temp1 := (s.h + S1 + ch + k + wi) % w32
  let S0 := rotr 2 s.a ^^^ rotr 13 s.a ^^^ rotr 22 s.a
  let maj := (s.a &&& s.b) ^^^ (s.a &&& s.c) ^^^ (s.b &&& s.c)
  let temp2 := (S0 + maj) % w32
  ⟨(temp1 + temp2) % w32, s.a, s.b, s.c, (s.d + temp1) % w32, s.e, s.f, s.g⟩

def add8 (x y : Hash8) : Hash8 :=
  ⟨(x.a + y.a) % w32, (x.b + y.b) % w32, (x.c + y.c) % w32, (x.d + y.d) % w32,
   (x.e + y.e) % w32, (x.f + y.f) % w32, (x.g + y.g) % w32, (x.h + y.h) % w32⟩

def compressChunk (s : Hash8) (chunk : List Nat) : Hash8 :=
  let W := schedule (bytesToWords chunk)
  add8 s ((List.range 64).foldl (fun t i => round (K.getD i 0) (W.getD i 0) t) s)

/-- Big-endian bytes of one 32-bit word. -/
def wordBytes (x : Nat) : List Nat :=
  [x / 2 ^ 24 % 256, x / 2 ^ 16 % 256, x / 2 ^ 8 % 256, x % 256]

def Hash8.toBytes (s : Hash8) : List Nat :=
  wordBytes s.a ++ wordBytes s.b ++ wordBytes s.c ++ wordBytes s.d ++
  wordBytes s.e ++ wordBytes s.f ++ wordBytes s.g ++ wordBytes s.h

/-- SHA-256 digest of a byte string, as 32 bytes. -/
def sha256 (m : List Nat) : List Nat :=
  ((chunks64 (padMsg m)).foldl compressChunk H0).toBytes

/-- A lowercase hexadecimal digit. -/
def hexDigit (n : Nat) : Char :=
  if n < 10 then Char.ofNat (48 + n) else Char.ofNat (87 + n)

/-- Two lowercase hex digits for one byte (bytes are below 256; the extra
`% 16` on the high digit makes totality over `Nat` explicit). -/
def hexPair (b : Nat) : List Char :=
  [hexDigit (b / 16 % 16), hexDigit (b % 16)]

/-- Python's `bytes.hex()` / `hashlib`'s `.hexdigest()`: lowercase hex. -/
def hexdigest (bs : List Nat) : String :=
  String.mk (bs.flatMap hexPair)

def sha256_hexdigest (m : List Nat) : String := hexdigest (sha256 m)

/-! ## Credential model (`device_auth.py`, `DeviceCredentials`) -/

/-- Module-level constant `CLIENT_ID`. -/
def CLIENT_ID : String := "gateway-client"

/-- Module-level constant `CLIENT_MODE`. -/
def CLIENT_MODE : String := "backend"

/-- Module-level constant `SCOPES`. -/
def SCOPES : List String := ["operator.read"]

/-- The `DeviceCredentials` dataclass: device id, PEM-encoded private key,
and the optional device token (`None` before first successful pairing). -/
structure DeviceCredentials where
  device_id : String
  private_key_pem : String
  token : Option String := none
deriving DecidableEq, Repr

/-- `DeviceCredentials.generate`: the Ed25519 keypair drawn by
`Ed25519PrivateKey.generate()` enters the model as its two serializations,
the raw public-key bytes and the PKCS8 PEM of the private key; the device id
is `hashlib.sha256(raw_pub).hexdigest()`. -/
def DeviceCredentials.generate (raw_pub : List Nat) (pem : String) : DeviceCredentials :=
  { device_id := sha256_hexdigest raw_pub, private_key_pem := pem }

/-- The payload string built inside `DeviceCredentials.sign` (line 182):
`f"v1|{self.device_id}|{CLIENT_ID}|{CLIENT_MODE}|operator|{scope_str}|{signed_at_ms}|{auth_token}"`
with `scope_str = ",".join(scopes)`. -/
def DeviceCredentials.sign_payload (c : DeviceCredentials) (scopes : List String)
    (signed_at_ms : Nat) (auth_token : String) : String :=
  let scope_str := String.intercalate "," scopes
  "v1|" ++ c.device_id ++ "|" ++ CLIENT_ID ++ "|" ++ CLIENT_MODE ++ "|operator|" ++
    scope_str ++ "|" ++ toString signed_at_ms ++ "|" ++ auth_token

/-- The bytes handed to the Ed25519 signing primitive:
`payload.encode("utf-8")`. -/
def DeviceCredentials.sign_bytes (c : DeviceCredentials) (scopes : List String)
    (signed_at_ms : Nat) (auth_token : String) : ByteArray :=
  (c.sign_payload scopes signed_at_ms auth_token).toUTF8

/-- The byte sequence the spec says is signed, built from its own words: the
string `v1|{deviceId}|{clientId}|{clientMode}|{role}|{scopes}|{signedAtMs}|{authToken}`
where `{scopes}` is the comma-joined scope list, the client identifier is
`"gateway-client"`, the client mode `"backend"` and the role `"operator"`. -/
def spec_handshake_payload (deviceId : String) (scopes : List String)
    (signedAtMs : Nat) (authToken : String) : String :=
  "v1|" ++ deviceId ++ "|" ++ "gateway-client" ++ "|" ++ "backend" ++ "|" ++ "operator" ++
    "|" ++ String.intercalate "," scopes ++ "|" ++ toString signedAtMs ++ "|" ++ authToken

/-! ## JSON dictionary model

`to_dict` / `from_dict` and the credential store work on parsed JSON
objects; the values this module reads and writes are strings or `null`. -/

/-- A JSON value as stored in the credentials dictionary. -/
inductive JVal where
  | null : JVal
  | str : String → JVal
deriving DecidableEq, Repr

/-- A parsed JSON object: keys with values, first binding wins on lookup. -/
abbrev JDict : Type := List (String × JVal)

def JDict.get (d : JDict) (k : String) : Option JVal := List.lookup k d

/-- `DeviceCredentials.to_dict`: keys in dataclass insertion order; `token`
is JSON `null` when the Python value is `None`. -/
def DeviceCredentials.to_dict (c : DeviceCredentials) : JDict :=
  [("deviceId", JVal.str c.device_id),
   ("privateKeyPem", JVal.str c.private_key_pem),
   ("token", match c.token with | some t => JVal.str t | none => JVal.null)]

/-- `DeviceCredentials.from_dict`: `d["deviceId"]` and `d["privateKeyPem"]`
must be present strings (a missing key raises `KeyError`, modelled as
`none`); `d.get("token")` is `None` when the key is absent or `null`. -/
def DeviceCredentials.from_dict (d : JDict) : Option DeviceCredentials :=
  match d.get "deviceId", d.get "privateKeyPem" with
  | some (JVal.str did), some (JVal.str pem) =>
      some { device_id := did, private_key_pem := pem,
             token := match d.get "token" with
                      | some (JVal.str t) => some t
                      | _ => none }
  | _, _ => none

/-! ## Handshake (`_handshake`, lines 223-284)

Inbound traffic is a finite list of `(gap, message)` pairs: `gap` is the
time the blocking `ws.recv()` spends before that message is delivered.
`asyncio.wait_for(ws.recv(), timeout=t)` raises `TimeoutError` when the gap
exceeds `t`; an exhausted list means no message ever arrives, so the
pending `wait_for` times out. -/

/-- An inbound JSON message, reduced to the fields `_handshake` reads:
`msg.get("type")`, `msg.get("event")`, `msg.get("id")`, the truthiness of
`msg.get("ok")`, `msg.get("error")`, and
`msg.get("payload", {}).get("auth", {}).get("deviceToken")`. -/
structure Msg where
  type : Option String := none
  event : Option String := none
  id : Option String := none
  ok : Bool := false
  error : Option String := none
  deviceToken : Option String := none
deriving DecidableEq, Repr

/-- A challenge event message, for concrete instantiations. -/
def challengeMsg : Msg := { type := some "event", event := some "connect.challenge" }

/-- An `ok` connect response carrying request id `"r"` and no device
token, for concrete instantiations. -/
def resOkMsg : Msg := { type := some "res", id := some "r", ok := true }

/-- Errors a handshake attempt can raise. -/
inductive HsErr where
  | timeout (bound : Nat)
  | connectFailed (error : Option String)
deriving DecidableEq, Repr

/-- The first wait loop (lines 245-248): discard every message that is not
the `connect.challenge` event; each read is bounded by `timeout=5`. Returns
the unread remainder of the stream. -/
def awaitChallenge : List (Nat × Msg) → Except HsErr (List (Nat × Msg))
  | [] => .error (.timeout 5)
  | (gap, m) :: rest =>
      if gap > 5 then .error (.timeout 5)
      else if m.type = some "event" ∧ m.event = some "connect.challenge" then .ok rest
      else awaitChallenge rest

/-- The second wait loop (lines 277-284): discard every message that is not
a response with the outstanding request id; each read is bounded by
`timeout=10`. A matching non-`ok` response raises; a matching `ok` response
yields the (possibly absent) issued device token. -/
def awaitConnectResponse (req_id : String) :
    List (Nat × Msg) → Except HsErr (Option String)
  | [] => .error (.timeout 10)
  | (gap, m) :: rest =>
      if gap > 10 then .error (.timeout 10)
      else if m.type = some "res" ∧ m.id = some req_id then
        if m.ok then .ok m.deviceToken else .error (.connectFailed m.error)
      else awaitConnectResponse req_id rest

/-- `_handshake`: wait for the challenge, sign and send the connect request
(the signing uses `creds.sign_payload`, which does not consume the stream),
then wait for the matching response. `req_id` stands for the fresh
`uuid.uuid4()` value. -/
def handshake (req_id : String) (stream : List (Nat × Msg)) :
    Except HsErr (Option String) := do
  let rest ← awaitChallenge stream
  awaitConnectResponse req_id rest

/-! ## Gateway config (`_read_gateway_auth_token`, lines 114-137) -/

/-- Python truthiness of an optional string: `None` and `""` are falsy. -/
def strTruthy : Option String → Bool
  | none => false
  | some s => s ≠ ""

/-- `_read_gateway_auth_token`. `env` is `os.environ.get("OPENCLAW_GATEWAY_TOKEN")`;
`cfg` is `none` when the config file does not exist, and otherwise carries
`config.get("gateway", {}).get("auth", {}).get("token")`. -/
def read_gateway_auth_token (env : Option String) (cfg : Option (Option String)) :
    Except String String :=
  match env with
  | some t =>
      if t ≠ "" then .ok t
      else match cfg with
        | none => .error "openclaw config not found"
        | some tok => if strTruthy tok then .ok (tok.getD "") else
            .error "gateway.auth.token not found in openclaw.json"
  | none =>
      match cfg with
      | none => .error "openclaw config not found"
      | some tok => if strTruthy tok then .ok (tok.getD "") else
          .error "gateway.auth.token not found in openclaw.json"

/-! ## Credential store and bootstrap (lines 206-216, 291-332)

The store is modelled at the parsed-JSON level: a map from path to the
JSON object the file holds (`none` when `path.exists()` is false). -/

/-- The filesystem as the credential store sees it. -/
abbrev Store : Type := List (String × JDict)

def Store.get (fs : Store) (path : String) : Option JDict := List.lookup path fs

/-- `load_credentials`: `None` when the path does not exist; otherwise parse
the stored object with `from_dict` (a malformed object raises, modelled as
`.error`). -/
def load_credentials (fs : Store) (path : String) :
    Except String (Option DeviceCredentials) :=
  match fs.get path with
  | none => .ok none
  | some d =>
      match DeviceCredentials.from_dict d with
      | some c => .ok (some c)
      | none => .error "KeyError"

/-- The effect of `save_credentials` on the parsed store: the path now
holds `creds.to_dict()`. -/
def save_credentials (fs : Store) (path : String) (c : DeviceCredentials) : Store :=
  (path, c.to_dict) :: fs

instance {ε α : Type} [DecidableEq ε] [DecidableEq α] : DecidableEq (Except ε α) :=
  fun x y =>
    match x, y with
    | .error a, .error b =>
        if h : a = b then .isTrue (by rw [h]) else .isFalse (by intro hc; cases hc; exact h rfl)
    | .ok a, .ok b =>
        if h : a = b then .isTrue (by rw [h]) else .isFalse (by intro hc; cases hc; exact h rfl)
    | .error _, .ok _ => .isFalse (by intro hc; cases hc)
    | .ok _, .error _ => .isFalse (by intro hc; cases hc)

/-- Errors `bootstrap` can raise. The source raises `RuntimeError` at four
distinct sites with distinct messages; the constructors mirror the sites. -/
inductive BootErr where
  | loadError (e : String)
  | config (e : String)
  | handshakeError (e : HsErr)
  | pairingIncomplete
deriving DecidableEq, Repr

/-- What one `bootstrap` call did: its outcome, the store afterwards, and
whether it opened a network connection / generated a keypair. -/
structure BootOutcome where
  result : Except BootErr DeviceCredentials
  fs : Store
  network : Bool
  generated : Bool
deriving DecidableEq, Repr

/-- `bootstrap` (lines 291-332). The ambient nondeterminism enters as
parameters: `raw_pub`/`pem` for the generated keypair, `env`/`cfg` for the
token sources, `req_id` for `uuid.uuid4()`, and `stream` for inbound
traffic. -/
def bootstrap (fs : Store) (path : String) (env : Option String)
    (cfg : Option (Option String)) (raw_pub : List Nat) (pem : String)
    (req_id : String) (stream : List (Nat × Msg)) : BootOutcome :=
  match load_credentials fs path with
  | .error e => ⟨.error (.loadError e), fs, false, false⟩
  | .ok (some c) => ⟨.ok c, fs, false, false⟩
  | .ok none =>
      let creds := DeviceCredentials.generate raw_pub pem
      match read_gateway_auth_token env cfg with
      | .error e => ⟨.error (.config e), fs, false, true⟩
      | .ok _ =>
          match handshake req_id stream with
          | .error e => ⟨.error (.handshakeError e), fs, true, true⟩
          | .ok issued =>
              if strTruthy issued then
                let creds' := { creds with token := issued }
                ⟨.ok creds', save_credentials fs path creds', true, true⟩
              else ⟨.error .pairingIncomplete, fs, true, true⟩

/-! ## `connect` (lines 335-351) -/

/-- Errors `connect` can raise. -/
inductive ConnErr where
  | noToken
  | handshakeError (e : HsErr)
deriving DecidableEq, Repr

/-- What one `connect` call did: the credentials after any in-memory token
rotation, whether a channel was opened, and which auth credential the
handshake (if any) used. -/
structure ConnectOutcome where
  result : Except ConnErr DeviceCredentials
  network : Bool
  authUsed : Option String
deriving DecidableEq, Repr

/-- `connect`: refuse falsy `creds.token` before touching the network,
otherwise run the handshake with the device token as auth credential and
adopt a truthy rotated token. -/
def connect (creds : DeviceCredentials) (req_id : String)
    (stream : List (Nat × Msg)) : ConnectOutcome :=
  if strTruthy creds.token then
    match handshake req_id stream with
    | .error e => ⟨.error (.handshakeError e), true, some (creds.token.getD "")⟩
    | .ok issued =>
        ⟨.ok (if strTruthy issued then { creds with token := issued } else creds),
         true, some (creds.token.getD "")⟩
  else ⟨.error .noToken, false, none⟩

/-! ## Byte-level model of `save_credentials` (lines 213-216)

For the atomicity claim the store is modelled below the JSON layer: a
filesystem of directories and file contents, and `save_credentials` as the
sequence of states the filesystem passes through while the function runs
(`mkdir` of the parent, the truncation performed by `open(path, "w")`, the
completed `json.dump`). -/

/-- Four lowercase hex digits (for `\uXXXX` escapes). -/
def hexDigit4 (n : Nat) : List Char :=
  [hexDigit (n / 4096 % 16), hexDigit (n / 256 % 16), hexDigit (n / 16 % 16), hexDigit (n % 16)]

/-- CPython `json` string escaping with the default `ensure_ascii=True`. -/
def pyEscChar (c : Char) : List Char :=
  if c = '"' then ['\\', '"']
  else if c = '\\' then ['\\', '\\']
  else if c = '\n' then ['\\', 'n']
  else if c = '\r' then ['\\', 'r']
  else if c = '\t' then ['\\', 't']
  else if c.toNat = 8 then ['\\', 'b']
  else if c.toNat = 12 then ['\\', 'f']
  else if c.toNat < 0x20 ∨ c.toNat > 0x7e then
    if c.toNat < 0x10000 then '\\' :: 'u' :: hexDigit4 c.toNat
    else
      let v := c.toNat - 0x10000
      '\\' :: 'u' :: hexDigit4 (0xd800 + v / 1024) ++ '\\' :: 'u' :: hexDigit4 (0xdc00 + v % 1024)
  else [c]

/-- A JSON string literal, as characters. -/
def pyJsonStr (s : String) : List Char :=
  '"' :: s.data.flatMap pyEscChar ++ ['"']

def jsonOfToken : Option String → List Char
  | none => ['n', 'u', 'l', 'l']
  | some t => pyJsonStr t

/-- `json.dumps(creds.to_dict(), indent=2)`: the exact file contents
`save_credentials` writes. -/
def json_dumps_creds (c : DeviceCredentials) : List Char :=
  "\x7b\n  \"deviceId\": ".data ++ pyJsonStr c.device_id ++
    ",\n  \"privateKeyPem\": ".data ++ pyJsonStr c.private_key_pem ++
    ",\n  \"token\": ".data ++ jsonOfToken c.token ++ "\n\x7d".data

/-- A credentials path split as `path.parent` / `path.name`. -/
structure SavePath where
  dir : String
  name : String
deriving DecidableEq, Repr

def SavePath.full (p : SavePath) : String := p.dir ++ "/" ++ p.name

/-- A filesystem: existing directories and file contents. -/
structure FileSys where
  dirs : List String
  files : List (String × String)
deriving DecidableEq, Repr

def FileSys.content (fs : FileSys) (path : String) : Option String :=
  List.lookup path fs.files

/-- The filesystem states `save_credentials` passes through, in order: the
initial state, after `path.parent.mkdir(parents=True, exist_ok=True)`,
after `open(path, "w")` truncates the file, and after `json.dump`
finishes. An interruption leaves the filesystem at one of the non-final
states (intra-write prefixes between the last two states are not even
needed to observe partial data: the truncated state already is one). -/
def save_credentials_states (c : DeviceCredentials) (p : SavePath) (fs : FileSys) :
    List FileSys :=
  let s1 : FileSys := ⟨p.dir :: fs.dirs, fs.files⟩
  let s2 : FileSys := ⟨s1.dirs, (p.full, "") :: s1.files⟩
  let s3 : FileSys := ⟨s2.dirs, (p.full, String.mk (json_dumps_creds c)) :: s2.files⟩
  [fs, s1, s2, s3]

/-- The filesystem after `save_credentials` completes. -/
def save_credentials_file (c : DeviceCredentials) (p : SavePath) (fs : FileSys) : FileSys :=
  ⟨p.dir :: fs.dirs,
   (p.full, String.mk (json_dumps_creds c)) :: (p.full, "") :: fs.files⟩

/-! ## RPC transport (spec section 4.5)

Modelled from the spec: the `RpcTransport.call` retry policy. The
transport implementation itself is not among the source files (only
`device_auth.py` and the local session scanner are); the spec's section
4.5 and error taxonomy (section 7) describe it: a connection-level failure
(channel closed, or the bounded ≈30-unit wait expired) is retried exactly
once after forcing a fresh reconnect; a second connection-level failure
surfaces as a transport error; an application-level error response
surfaces immediately and is never retried. -/

/-- Modelled from the spec: how one physical attempt of a logical RPC call
ends. -/
inductive Attempt where
  | closed
  | expired
  | appError (e : String)
  | success (payload : String)
deriving DecidableEq, Repr

/-- A connection-level failure: channel closed or bounded wait expired. -/
def Attempt.connLevel : Attempt → Bool
  | .closed => true
  | .expired => true
  | _ => false

/-- Modelled from the spec: the errors a logical call can surface. -/
inductive CallErr where
  | transport
  | app (e : String)
deriving DecidableEq, Repr

/-- Modelled from the spec: one logical `call`, given how its first
physical attempt and (if reached) its post-reconnect retry end. Returns
the surfaced result and the number of physical attempts issued. -/
def rpc_call (first retryAttempt : Attempt) : Except CallErr String × Nat :=
  match first with
  | .success p => (.ok p, 1)
  | .appError e => (.error (.app e), 1)
  | .closed | .expired =>
      match retryAttempt with
      | .success p => (.ok p, 2)
      | .appError e => (.error (.app e), 2)
      | .closed | .expired => (.error .transport, 2)

/-! ## Helper lemmas -/

theorem sha256_length (m : List Nat) : (sha256 m).length = 32 := by
  simp [sha256, Hash8.toBytes, wordBytes]

theorem flatMap_hexPair_length (bs : List Nat) :
    (bs.flatMap hexPair).length = 2 * bs.length := by
  induction bs with
  | nil => rfl
  | cons b t ih => simp [hexPair, ih]; omega

theorem hexdigest_length (bs : List Nat) : (hexdigest bs).length = 2 * bs.length := by
  rw [hexdigest, String.length_mk, flatMap_hexPair_length]

theorem hexDigit_mem (n : Nat) (h : n < 16) : hexDigit n ∈ "0123456789abcdef".toList := by
  interval_cases n <;> decide

theorem hexPair_mem (b : Nat) : ∀ c ∈ hexPair b, c ∈ "0123456789abcdef".toList := by
  intro c hc
  simp [hexPair] at hc
  rcases hc with h | h <;> subst h <;>
    exact hexDigit_mem _ (Nat.mod_lt _ (by norm_num))

theorem hexdigest_chars (bs : List Nat) :
    ∀ c ∈ (hexdigest bs).toList, c ∈ "0123456789abcdef".toList := by
  intro c hc
  have hc' : c ∈ bs.flatMap hexPair := hc
  obtain ⟨b, _, hcb⟩ := List.mem_flatMap.mp hc'
  exact hexPair_mem b c hcb

theorem fold_operator (x : String) : x ++ "|" ++ "operator" ++ "|" = x ++ "|operator|" := by
  rw [String.append_assoc, String.append_assoc]
  congr 1

/-! ## Sanity checks of the SHA-256 embedding (FIPS 180-4 vectors) -/

set_option maxRecDepth 100000

theorem sha256_vector_empty :
    sha256_hexdigest []
      = "e3b0c44298fc1c149afbf4c8996fb92427ae41e4649b934ca495991b7852b855" := by decide

theorem sha256_vector_abc :
    sha256_hexdigest [0x61, 0x62, 0x63]
      = "ba7816bf8f01cfea414140de5dae2223b00361a396177a9cb410ff61f20015ad" := by decide

/-! ## Claims -/

/-- C1: the generated deviceId is the lowercase hex digest of SHA-256 of
the raw public-key bytes, hence a deterministic function of the key
material (independent of the PEM serialization drawn alongside it), 64
lowercase hex characters long. -/
theorem C1_device_id_is_sha256_of_public_key (raw_pub : List Nat) (pem pem' : String) :
    (DeviceCredentials.generate raw_pub pem).device_id = sha256_hexdigest raw_pub ∧
    (DeviceCredentials.generate raw_pub pem).device_id
      = (DeviceCredentials.generate raw_pub pem').device_id ∧
    (DeviceCredentials.generate raw_pub pem).device_id.length = 64 ∧
    ∀ c ∈ (DeviceCredentials.generate raw_pub pem).device_id.toList,
      c ∈ "0123456789abcdef".toList := by
  refine ⟨rfl, rfl, ?_, ?_⟩
  · show (sha256_hexdigest raw_pub).length = 64
    rw [sha256_hexdigest, hexdigest_length, sha256_length]
  · exact hexdigest_chars _

/-- C2: the byte sequence signed in the handshake is exactly the UTF-8
encoding of `v1|{deviceId}|{clientId}|{clientMode}|{role}|{scopes}|{signedAtMs}|{authToken}`
with the comma-joined scope list and the auth credential in use. -/
theorem C2_signed_payload_format (c : DeviceCredentials) (scopes : List String)
    (signed_at_ms : Nat) (auth_token : String) :
    c.sign_payload scopes signed_at_ms auth_token
      = spec_handshake_payload c.device_id scopes signed_at_ms auth_token ∧
    c.sign_bytes scopes signed_at_ms auth_token
      = (spec_handshake_payload c.device_id scopes signed_at_ms auth_token).toUTF8 := by
  have h : c.sign_payload scopes signed_at_ms auth_token
      = spec_handshake_payload c.device_id scopes signed_at_ms auth_token := by
    simp only [DeviceCredentials.sign_payload, spec_handshake_payload, CLIENT_ID, CLIENT_MODE,
      fold_operator]
  exact ⟨h, congrArg String.toUTF8 h⟩

/-- C9: credential serialization round-trips through `to_dict`/`from_dict`,
including a `None` token, and `from_dict` tolerates an absent token entry
by producing credentials whose token is `None`. -/
theorem C9_serialization_roundtrip (c : DeviceCredentials) (did pem : String) :
    DeviceCredentials.from_dict c.to_dict = some c ∧
    DeviceCredentials.from_dict [("deviceId", JVal.str did), ("privateKeyPem", JVal.str pem)]
      = some { device_id := did, private_key_pem := pem, token := none } := by
  constructor
  · cases c with
    | mk d p t => cases t <;> rfl
  · rfl

/-- C3: when the store already holds credentials at the path, `bootstrap`
returns them unchanged with no network activity, no key generation and no
store write, and a repeat call returns the same outcome. -/
theorem C3_bootstrap_idempotent (fs : Store) (path : String) (env : Option String)
    (cfg : Option (Option String)) (raw_pub : List Nat) (pem req_id : String)
    (stream : List (Nat × Msg)) (c : DeviceCredentials)
    (h : load_credentials fs path = .ok (some c)) :
    bootstrap fs path env cfg raw_pub pem req_id stream
      = ⟨.ok c, fs, false, false⟩ ∧
    bootstrap (bootstrap fs path env cfg raw_pub pem req_id stream).fs path env cfg
        raw_pub pem req_id stream
      = bootstrap fs path env cfg raw_pub pem req_id stream := by
  have h1 : bootstrap fs path env cfg raw_pub pem req_id stream
      = ⟨.ok c, fs, false, false⟩ := by
    unfold bootstrap
    rw [h]
  exact ⟨h1, by rw [h1]; exact h1⟩

theorem C3_bootstrap_idempotent_witness :
    load_credentials [("p", DeviceCredentials.to_dict ⟨"d", "k", some "t"⟩)] "p"
      = .ok (some ⟨"d", "k", some "t"⟩) ∧
    bootstrap [("p", DeviceCredentials.to_dict ⟨"d", "k", some "t"⟩)] "p"
        none none [] "" "r" []
      = ⟨.ok ⟨"d", "k", some "t"⟩,
         [("p", DeviceCredentials.to_dict ⟨"d", "k", some "t"⟩)], false, false⟩ :=
  ⟨by decide,
   (C3_bootstrap_idempotent [("p", DeviceCredentials.to_dict ⟨"d", "k", some "t"⟩)]
     "p" none none [] "" "r" [] ⟨"d", "k", some "t"⟩ (by decide)).1⟩

/-- C4: a first-run bootstrap whose handshake succeeds without a truthy
issued device token raises the distinct pairing-incomplete error (not the
connect-failed error carrying a gateway detail) and leaves the store
unchanged. -/
theorem C4_pairing_incomplete (fs : Store) (path : String) (env : Option String)
    (cfg : Option (Option String)) (raw_pub : List Nat) (pem req_id : String)
    (stream : List (Nat × Msg)) (tok : String) (issued : Option String)
    (h1 : load_credentials fs path = .ok none)
    (h2 : read_gateway_auth_token env cfg = .ok tok)
    (h3 : handshake req_id stream = .ok issued)
    (h4 : strTruthy issued = false) :
    bootstrap fs path env cfg raw_pub pem req_id stream
      = ⟨.error .pairingIncomplete, fs, true, true⟩ ∧
    ∀ e : Option String,
      (BootErr.pairingIncomplete : BootErr) ≠ .handshakeError (.connectFailed e) := by
  refine ⟨?_, fun e h => by cases h⟩
  simp only [bootstrap, h1, h2, h3, h4]
  rfl

theorem C4_pairing_incomplete_witness :
    load_credentials [] "p" = .ok none ∧
    read_gateway_auth_token (some "g") none = .ok "g" ∧
    handshake "r"
        [(0, { type := some "event", event := some "connect.challenge" }),
         (0, { type := some "res", id := some "r", ok := true })] = .ok none ∧
    strTruthy none = false ∧
    bootstrap [] "p" (some "g") none [] "" "r"
        [(0, { type := some "event", event := some "connect.challenge" }),
         (0, { type := some "res", id := some "r", ok := true })]
      = ⟨.error .pairingIncomplete, [], true, true⟩ :=
  ⟨by decide, by decide, by decide, by decide,
   (C4_pairing_incomplete [] "p" (some "g") none [] "" "r"
     [(0, { type := some "event", event := some "connect.challenge" }),
      (0, { type := some "res", id := some "r", ok := true })]
     "g" none (by decide) (by decide) (by decide) (by decide)).1⟩

/-- C5 counterexample: `save_credentials` is not atomic. On an initially
empty filesystem, one of the states the save passes through (after
`open(path, "w")` truncates) holds an empty file at the path: it is
neither the untouched store nor the completed serialized credentials, and
a load interrupted there observes it. -/
theorem C5_counterexample :
    ¬ ∀ s ∈ save_credentials_states ⟨"d", "k", none⟩ ⟨"dir", "device.json"⟩ ⟨[], []⟩,
        FileSys.content s (SavePath.full ⟨"dir", "device.json"⟩)
            = FileSys.content ⟨[], []⟩ (SavePath.full ⟨"dir", "device.json"⟩) ∨
          FileSys.content s (SavePath.full ⟨"dir", "device.json"⟩)
            = some (String.mk (json_dumps_creds ⟨"d", "k", none⟩)) := by decide

/-- C5 (amended): `save_credentials` first creates the missing parent
directory and writes the serialized credentials in place (truncate, then
write): on completion the path holds exactly the serialized credentials,
but the write is not atomic — between truncation and completion the path
holds a partial (here: empty) file that a later load can observe. -/
theorem C5_save_creates_parent_and_writes_in_place (c : DeviceCredentials)
    (p : SavePath) (fs : FileSys) :
    (save_credentials_file c p fs).content p.full
      = some (String.mk (json_dumps_creds c)) ∧
    p.dir ∈ (save_credentials_file c p fs).dirs ∧
    (save_credentials_states c p fs).getLast? = some (save_credentials_file c p fs) ∧
    ∃ s ∈ save_credentials_states c p fs, s.content p.full = some "" := by
  refine ⟨?_, ?_, rfl, ?_⟩
  · simp [save_credentials_file, FileSys.content]
  · simp [save_credentials_file]
  · refine ⟨⟨p.dir :: fs.dirs, (p.full, "") :: fs.files⟩, ?_, ?_⟩
    · simp [save_credentials_states]
    · simp [FileSys.content]

/-- C6: the environment token takes precedence whenever set and non-empty;
when neither the environment variable nor a config-file token is
available the read fails, and a bootstrap that needs the token then
raises a fatal configuration error without any network activity. -/
theorem C6_token_source_precedence (env : Option String) (cfg : Option (Option String)) :
    (∀ e : String, env = some e → e ≠ "" →
        read_gateway_auth_token env cfg = .ok e) ∧
    (strTruthy env = false →
      cfg = none ∨ cfg = some none ∨ cfg = some (some "") →
        ∃ msg, read_gateway_auth_token env cfg = .error msg) ∧
    (∀ (fs : Store) (path : String) (raw_pub : List Nat) (pem req_id : String)
        (stream : List (Nat × Msg)) (msg : String),
      load_credentials fs path = .ok none →
      read_gateway_auth_token env cfg = .error msg →
      bootstrap fs path env cfg raw_pub pem req_id stream
        = ⟨.error (.config msg), fs, false, true⟩) := by
  refine ⟨?_, ?_, ?_⟩
  · rintro e rfl he
    simp [read_gateway_auth_token, he]
  · intro henv hcfg
    rcases env with _ | e
    · rcases hcfg with rfl | rfl | rfl <;> exact ⟨_, rfl⟩
    · have he : e = "" := by simpa [strTruthy] using henv
      subst he
      rcases hcfg with rfl | rfl | rfl
      · exact ⟨"openclaw config not found", by decide⟩
      · exact ⟨"gateway.auth.token not found in openclaw.json", by decide⟩
      · exact ⟨"gateway.auth.token not found in openclaw.json", by decide⟩
  · intro fs path raw_pub pem req_id stream msg hl hr
    simp only [bootstrap, hl, hr]

theorem C6_token_source_precedence_witness :
    read_gateway_auth_token (some "envTok") (some (some "cfgTok")) = .ok "envTok" ∧
    (∃ msg, read_gateway_auth_token none (some (some "")) = .error msg) ∧
    bootstrap [] "p" none none [] "" "r" []
      = ⟨.error (.config "openclaw config not found"), [], false, true⟩ :=
  ⟨(C6_token_source_precedence (some "envTok") (some (some "cfgTok"))).1 "envTok" rfl (by decide),
   (C6_token_source_precedence none (some (some ""))).2.1 (by decide) (.inr (.inr rfl)),
   (C6_token_source_precedence none none).2.2 [] "p" [] "" "r" []
     "openclaw config not found" (by decide) (by decide)⟩

/-- C7 counterexample: the two wait bounds are per read, not per phase. A
challenge delivered only after 12 units of waiting (behind two discarded
messages that each arrive within 5 units) still succeeds, and likewise a
matching response after 27 units behind traffic arriving within 10 units,
so an awaited message that fails to arrive within the claimed bound does
not make the attempt fail. -/
theorem C7_counterexample :
    awaitChallenge
        [(4, {}), (4, {}), (4, { type := some "event", event := some "connect.challenge" })]
      = .ok [] ∧
    4 + 4 + 4 > 5 ∧
    awaitConnectResponse "r"
        [(9, {}), (9, {}), (9, { type := some "res", id := some "r", ok := true })]
      = .ok none ∧
    9 + 9 + 9 > 10 := by decide

/-- C7 (amended): each wait phase discards non-matching inbound messages,
and its bound (5 units for the challenge, 10 for the connect response)
applies to each individual read: a read that produces no message within
the bound fails the attempt with a fatal timeout error, but every
discarded message restarts the clock, so a phase can wait longer than the
bound in total while non-matching traffic keeps arriving within it. -/
theorem C7_per_read_timeout (req_id : String) (gap : Nat) (m : Msg)
    (rest : List (Nat × Msg)) :
    (gap ≤ 5 → ¬(m.type = some "event" ∧ m.event = some "connect.challenge") →
        awaitChallenge ((gap, m) :: rest) = awaitChallenge rest) ∧
    (gap > 5 → awaitChallenge ((gap, m) :: rest) = .error (.timeout 5)) ∧
    awaitChallenge [] = .error (.timeout 5) ∧
    (gap ≤ 10 → ¬(m.type = some "res" ∧ m.id = some req_id) →
        awaitConnectResponse req_id ((gap, m) :: rest) = awaitConnectResponse req_id rest) ∧
    (gap > 10 → awaitConnectResponse req_id ((gap, m) :: rest) = .error (.timeout 10)) ∧
    awaitConnectResponse req_id [] = .error (.timeout 10) := by
  refine ⟨?_, ?_, rfl, ?_, ?_, rfl⟩
  · intro hg hm
    have hng : ¬ gap > 5 := by omega
    simp [awaitChallenge, hng, hm]
  · intro hg
    simp [awaitChallenge, hg]
  · intro hg hm
    have hng : ¬ gap > 10 := by omega
    simp [awaitConnectResponse, hng, hm]
  · intro hg
    simp [awaitConnectResponse, hg]

theorem C7_per_read_timeout_witness :
    awaitChallenge [(3, { type := some "res" }), (1, challengeMsg)]
      = awaitChallenge [(1, challengeMsg)] ∧
    awaitChallenge [(6, challengeMsg)] = .error (.timeout 5) ∧
    awaitConnectResponse "r" [(7, { type := some "event" }), (1, resOkMsg)]
      = awaitConnectResponse "r" [(1, resOkMsg)] ∧
    awaitConnectResponse "r" [(11, resOkMsg)] = .error (.timeout 10) :=
  ⟨(C7_per_read_timeout "r" 3 { type := some "res" } [(1, challengeMsg)]).1
      (by decide) (by decide),
   (C7_per_read_timeout "r" 6 challengeMsg []).2.1 (by decide),
   (C7_per_read_timeout "r" 7 { type := some "event" } [(1, resOkMsg)]).2.2.2.1
      (by decide) (by decide),
   (C7_per_read_timeout "r" 11 resOkMsg []).2.2.2.2.1 (by decide)⟩

/-- C8: a connection-level failure of a logical RPC call is retried
exactly once after a reconnect (the outcome is then the retry's, with two
physical attempts); two connection-level failures surface as a transport
error; an application-level error surfaces immediately after one attempt
and is never retried. Modelled from the spec, section 4.5. -/
theorem C8_rpc_retry_policy (first retryAttempt : Attempt) :
    (∀ p, first = .success p → rpc_call first retryAttempt = (.ok p, 1)) ∧
    (∀ e, first = .appError e → rpc_call first retryAttempt = (.error (.app e), 1)) ∧
    (first.connLevel = true → retryAttempt.connLevel = true →
        rpc_call first retryAttempt = (.error .transport, 2)) ∧
    (first.connLevel = true → ∀ p, retryAttempt = .success p →
        rpc_call first retryAttempt = (.ok p, 2)) ∧
    (first.connLevel = true → ∀ e, retryAttempt = .appError e →
        rpc_call first retryAttempt = (.error (.app e), 2)) := by
  cases first <;> cases retryAttempt <;>
    simp [rpc_call, Attempt.connLevel]

theorem C8_rpc_retry_policy_witness :
    rpc_call (.success "pay") .closed = (.ok "pay", 1) ∧
    rpc_call (.appError "bad") (.success "x") = (.error (.app "bad"), 1) ∧
    rpc_call .closed .expired = (.error .transport, 2) ∧
    rpc_call .expired (.success "pay") = (.ok "pay", 2) ∧
    rpc_call .closed (.appError "bad") = (.error (.app "bad"), 2) :=
  ⟨(C8_rpc_retry_policy (.success "pay") .closed).1 "pay" rfl,
   (C8_rpc_retry_policy (.appError "bad") (.success "x")).2.1 "bad" rfl,
   (C8_rpc_retry_policy .closed .expired).2.2.1 rfl rfl,
   (C8_rpc_retry_policy .expired (.success "pay")).2.2.2.1 rfl "pay" rfl,
   (C8_rpc_retry_policy .closed (.appError "bad")).2.2.2.2 rfl "bad" rfl⟩

/-- C10: `connect` with a `None` or empty stored token fails before
opening any channel or running any handshake; and whenever `connect` does
open a channel, the handshake's auth credential is the non-empty device
token. -/
theorem C10_connect_requires_device_token (creds : DeviceCredentials) (req_id : String)
    (stream : List (Nat × Msg))
    (h : creds.token = none ∨ creds.token = some "") :
    connect creds req_id stream = ⟨.error .noToken, false, none⟩ ∧
    ∀ (c' : DeviceCredentials) (r' : String) (s' : List (Nat × Msg)),
      (connect c' r' s').network = true →
      ∃ t, c'.token = some t ∧ t ≠ "" ∧ (connect c' r' s').authUsed = some t := by
  constructor
  · have hf : strTruthy creds.token = false := by
      rcases h with h | h <;> simp [h, strTruthy]
    simp [connect, hf]
  · intro c' r' s' hn
    by_cases ht : strTruthy c'.token = true
    · cases hc : c'.token with
      | none => rw [hc] at ht; cases ht
      | some t =>
          refine ⟨t, rfl, ?_, ?_⟩
          · rw [hc] at ht
            simpa [strTruthy] using ht
          · simp only [connect, ht, if_true]
            cases handshake r' s' <;> simp [hc]
    · simp [connect, ht] at hn

theorem C10_connect_requires_device_token_witness :
    connect ⟨"d", "k", none⟩ "r" [] = ⟨.error .noToken, false, none⟩ :=
  (C10_connect_requires_device_token ⟨"d", "k", none⟩ "r" [] (.inl rfl)).1

end DeviceAuth
